import Mathlib

/-!
Verification of the audio enhancement engine of `transcriptsmaker`.

Shallow embedding of `src/audio_processor/processor.py`,
`src/audio_processor/exceptions.py` and `src/error_handling/handlers.py`.
Sample values are embedded as rationals (the Python code computes in
IEEE doubles; none of the properties proved here depends on rounding),
signals as `List ℚ`, and raised Python exceptions as `Except` errors.
-/

/-! ## Exception model (src/audio_processor/exceptions.py) -/

/-- Exceptions that can be raised along the pipeline.  The four
constructors `audioFormat`, `audioQuality`, `audioTimeout` and
`audioEnhancement` mirror the `AudioProcessingError` subclasses
`AudioFormatError`, `AudioQualityError`, `AudioProcessingTimeout` and
`AudioEnhancementError`; `fileNotFound` is the builtin
`FileNotFoundError`; `raw s` stands for any other builtin or
third-party exception of class name `s` (e.g. scipy's `ValueError`). -/
inductive PyExc where
  | fileNotFound : PyExc
  | audioFormat : PyExc
  | audioQuality : PyExc
  | audioTimeout : PyExc
  | audioEnhancement : PyExc
  | raw : String → PyExc
deriving DecidableEq

/-- Python `isinstance(e, AudioProcessingError)`: true exactly for the four
classes declared in `src/audio_processor/exceptions.py` that derive from
`AudioProcessingError`. -/
def isAudioProcessingError : PyExc → Bool
  | PyExc.audioFormat => true
  | PyExc.audioQuality => true
  | PyExc.audioTimeout => true
  | PyExc.audioEnhancement => true
  | _ => false

/-! ## Stage exception wrappers (processor.py) -/

/-- The blanket handler that every DSP stage body carries
(`except Exception as e: raise AudioEnhancementError(...)`, at lines
149-151, 179-181, 219-221, 248-250 and 285-287 of processor.py): any
exception escaping the stage body is replaced by `AudioEnhancementError`. -/
def stage_wrap {α : Type} (r : Except PyExc α) : Except PyExc α :=
  match r with
  | Except.ok v => Except.ok v
  | Except.error _ => Except.error PyExc.audioEnhancement

/-- The `with_timeout` decorator (processor.py lines 30-47).  Its `except`
clause catches only `AudioProcessingTimeout` and re-raises it unchanged;
every other outcome of the wrapped call passes through untouched, so the
decorator never alters the surfaced value. -/
def with_timeout_result {α : Type} (r : Except PyExc α) : Except PyExc α :=
  match r with
  | Except.error PyExc.audioTimeout => Except.error PyExc.audioTimeout
  | r => r

/-- The `except` clause of `process_audio` (lines 119-123): an
`AudioProcessingError` instance is re-raised as-is, anything else is
replaced by `AudioEnhancementError`. -/
def process_audio_wrap {α : Type} (body : Except PyExc α) : Except PyExc α :=
  match body with
  | Except.ok v => Except.ok v
  | Except.error e =>
      if isAudioProcessingError e then Except.error e
      else Except.error PyExc.audioEnhancement

/-- Where a `SIGALRM` timeout (raised by `timeout_handler`, line 27-28) hits
the running pipeline.  The alarm raises `AudioProcessingTimeout` at the
current execution point: `inStageTry` means inside the `try` block of one of
the inner stages (`normalize_audio`, `adaptive_noise_reduction`,
`echo_cancellation`, `classify_background_noise`, `enhance_audio` — the
common case, since those `try` blocks span the whole stage bodies);
`inPipelineTry` means inside `process_audio`'s own `try` block but outside
every inner stage `try`; `noAlarm` means no budget was exceeded. -/
inductive AlarmSite where
  | noAlarm : AlarmSite
  | inStageTry : AlarmSite
  | inPipelineTry : AlarmSite
deriving DecidableEq

/-- The error surfaced to the caller of `process_audio` (lines 80-123):
the try-block outcome (abstracted by `stages` when no alarm fires, and by
an injected `AudioProcessingTimeout` routed through the handlers that
enclose the point where the alarm fires) passes through `process_audio`'s
`except` clause and the `with_timeout(300)` decorator. -/
def pipeline_surface {α : Type} (site : AlarmSite) (stages : Except PyExc α) :
    Except PyExc α :=
  with_timeout_result (process_audio_wrap (
    match site with
    | AlarmSite.noAlarm => stages
    | AlarmSite.inStageTry =>
        with_timeout_result (stage_wrap (Except.error PyExc.audioTimeout))
    | AlarmSite.inPipelineTry => Except.error PyExc.audioTimeout))

/-! ## Validator and normalizer (processor.py lines 49-151) -/

def TARGET_SAMPLE_RATE : ℕ := 16000

def MIN_SAMPLE_RATE : ℕ := 8000

def MAX_CHANNELS : ℕ := 2

/-- The decoded-container parameters that `_validate_audio_parameters` and
`normalize_audio` inspect (`pydub.AudioSegment` attributes). -/
structure DecodedAudio where
  frame_rate : ℕ
  channels : ℕ
deriving DecidableEq

/-- Embeds `_validate_audio_parameters` (lines 72-78): a decoded sample rate
below `MIN_SAMPLE_RATE` or a channel count above `MAX_CHANNELS` raises
`AudioQualityError`. -/
def validate_audio_parameters (a : DecodedAudio) : Except PyExc Unit :=
  if a.frame_rate < MIN_SAMPLE_RATE then Except.error PyExc.audioQuality
  else if a.channels > MAX_CHANNELS then Except.error PyExc.audioQuality
  else Except.ok ()

/-- Embeds `normalize_audio` (lines 125-151).  `decodeR` is the result of
the external `AudioSegment.from_file` (`none` = decode raised).  The body
validates, caps channels at 2 (line 133-134, dead code since validation
already rejected more than 2), and resamples to `TARGET_SAMPLE_RATE`
(lines 138-139; when the rate already equals the target no call is made,
with the same resulting rate).  The loudness gain (lines 142-144) changes
neither rate nor channels and is not modelled.  The surrounding
`try`/`except` (lines 128, 149-151) wraps EVERY failure — including the
`AudioQualityError` from validation — as `AudioEnhancementError`. -/
def normalize_audio (decodeR : Option DecodedAudio) : Except PyExc DecodedAudio :=
  stage_wrap (
    match decodeR with
    | none => Except.error (PyExc.raw ("CouldntDecodeError"))
    | some a =>
        match validate_audio_parameters a with
        | Except.error e => Except.error e
        | Except.ok _ =>
            Except.ok ⟨TARGET_SAMPLE_RATE, if a.channels > 2 then 2 else a.channels⟩)

/-! ## Band-pass filter construction (processor.py lines 272-280) -/

/-- The normalized critical frequencies handed to `scipy.signal.butter` in
`enhance_audio` (lines 272-279): `nyquist = sample_rate // 2` (integer
division), `Wn = [80/nyquist, 8000/nyquist]` (true division).  No clamping
of any kind is applied to either edge. -/
def butter_Wn (sample_rate : ℕ) : ℚ × ℚ :=
  ((80 : ℚ) / ((sample_rate / 2 : ℕ) : ℚ), (8000 : ℚ) / ((sample_rate / 2 : ℕ) : ℚ))

/-- Precondition of `scipy.signal.butter` for digital filters (scipy is an
external library; this is its documented contract): each critical frequency
must satisfy `0 < Wn < 1`, otherwise `butter` raises
`ValueError("Digital filter critical frequencies must be 0 < Wn < 1")`. -/
def butter_ok (wn : ℚ × ℚ) : Prop :=
  0 < wn.1 ∧ wn.1 < 1 ∧ 0 < wn.2 ∧ wn.2 < 1

instance butter_ok_decidable (wn : ℚ × ℚ) : Decidable (butter_ok wn) := by
  unfold butter_ok
  infer_instance

/-- The band-pass sub-step of `enhance_audio` (lines 272-280): `butter`
raises `ValueError` when its precondition fails; otherwise `filtfilt`
(external, zero-phase forward-backward application) returns a signal. -/
def bandpass_step (sample_rate : ℕ) : Except PyExc Unit :=
  if butter_ok (butter_Wn sample_rate) then Except.ok ()
  else Except.error (PyExc.raw ("ValueError"))

/-! ## Adaptive noise reduction (processor.py lines 163-181) -/

/-- The argument record `adaptive_noise_reduction` passes to the external
`noisereduce.reduce_noise` (lines 170-176). -/
structure ReduceNoiseArgs where
  y : List ℚ
  y_noise : List ℚ
  sr : ℕ
  stationary : Bool
  prop_decrease : ℚ
deriving DecidableEq

/-- Embeds the call made by `adaptive_noise_reduction` (lines 163-181):
`noise_clip = audio_data[:int(sample_rate)]` (the first 1000 ms, line 169)
and `reduce_noise(y=audio_data, y_noise=noise_clip, sr=sample_rate,
stationary=False, prop_decrease=0.75)`.  The suppression strength
`prop_decrease` is the literal constant `0.75`; nothing in the repository
computes an SNR or feeds one into this call. -/
def adaptive_noise_reduction_args (audio_data : List ℚ) (sample_rate : ℕ) :
    ReduceNoiseArgs :=
  ⟨audio_data, audio_data.take sample_rate, sample_rate, false, 3/4⟩

/-- Written from the spec's words (for comparison with the code, never used
by it): the claimed suppression strength
`s = clamp(1 - SNR_db_in/30, 0.3, 0.75)`. -/
def spec_strength (snr_db : ℚ) : ℚ :=
  max (3/10) (min (3/4) (1 - snr_db / 30))

/-- Modelled from the spec: the SNR estimator of spec section 4.5 is absent
from src/ (no SNR computation exists anywhere in the repository).
`SNR_db = 10*log10(P_signal/P_noise)`, returning plus infinity when
`P_noise = 0`. -/
noncomputable def snr_db_spec (p_signal p_noise : ℝ) : EReal :=
  if p_noise = 0 then ⊤
  else ((10 * Real.logb 10 (p_signal / p_noise) : ℝ) : EReal)

/-! ## Noise classifier rule table (processor.py lines 223-246) -/

/-- Embeds the decision chain of `classify_background_noise`
(lines 236-243), over the mean spectral centroid and mean roll-off that the
external `librosa` feature extractors produce (lines 228-234). -/
def classify_rules (mean_centroid mean_rolloff : ℚ) : String :=
  if mean_centroid < 1000 ∧ mean_rolloff < 2000 then "ambient"
  else if mean_centroid > 3000 ∧ mean_rolloff > 5000 then "mechanical"
  else if 1000 ≤ mean_centroid ∧ mean_centroid ≤ 3000 then "speech_babble"
  else "unknown"

/-- Written from the spec's words (section 4.6 rule table, first match
wins), for comparison with `classify_rules`. -/
def spec_rule_table (centroid rolloff : ℚ) : String :=
  if centroid < 1000 ∧ rolloff < 2000 then "ambient"
  else if centroid > 3000 ∧ rolloff > 5000 then "mechanical"
  else if 1000 ≤ centroid ∧ centroid ≤ 3000 then "speech_babble"
  else "unknown"

/-! ## Echo cancellation (processor.py lines 183-217) -/

def filter_length : ℕ := 1024

def chunk_size : ℕ := 1024

/-- LMS step size (line 195); the float literal `0.1` is modelled as the
rational 1/10 (no property proved here depends on its value). -/
def step_size : ℚ := 1/10

/-- Echo decay (line 189); the float literal `0.3` modelled as 3/10. -/
def echo_decay : ℚ := 3/10

/-- Dot product `np.dot` over equal-length sample windows. -/
def dotQ (a b : List ℚ) : ℚ :=
  (List.zipWith (fun u v => u * v) a b).sum

/-- The synthetic echo reference (lines 191-192):
`echo = np.zeros_like(audio_data); echo[delay:] = audio_data[:-delay] * decay`.
Faithful for `delay > 0` (so that `[:-delay]` drops the last `delay`
samples); the `delay = 0` case, where numpy rejects the slice assignment,
is handled in `echo_cancellation` below. -/
def echoRef (delay : ℕ) (x : List ℚ) : List ℚ :=
  List.replicate (min delay x.length) 0 ++
    (x.take (x.length - delay)).map (fun v => v * echo_decay)

/-- The inner LMS loop over one block (lines 208-214).  `xpad` is
`np.concatenate([np.zeros(filter_length - 1), chunk])` (line 207); `ps`
carries the remaining pairs `(echo_chunk[n], chunk[n])`; `n` is the running
sample index inside the block.  For each sample: the window
`x_n = x[n:n+filter_length]`, the prediction `y = dot(w, x_n)`, the error
`e = d - y`, the weight update `w += step_size * e * x_n`, and the output
sample `audio_data[i+n] - y`.  Returns the final weights and the block's
output samples in order. -/
def lmsRun (xpad : List ℚ) : List ℚ → ℕ → List (ℚ × ℚ) → List ℚ × List ℚ
  | w, _, [] => (w, [])
  | w, n, p :: ps =>
      let xn := (xpad.drop n).take filter_length
      let y := dotQ w xn
      let e := p.1 - y
      let w2 := List.zipWith (fun wi xi => wi + step_size * e * xi) w xn
      let r := lmsRun xpad w2 (n+1) ps
      (r.1, (p.2 - y) :: r.2)

/-- The outer block loop of `echo_cancellation` (lines 200-214), fuel-indexed
(the Python `for i in range(0, len(audio_data), chunk_size)` performs at most
`len + 1` iterations, so the fuel never runs out when seeded with `len + 1`).
`cancelled_audio` is preallocated as zeros (line 198); when the trailing
chunk is shorter than `chunk_size` the loop breaks (lines 204-205), so the
positions of every not-fully-filled block keep their initialized zeros —
which the base cases return as `List.replicate x.length 0`. -/
def blocksGo : ℕ → List ℚ → List ℚ → List ℚ → List ℚ
  | 0, _, x, _ => List.replicate x.length 0
  | fuel+1, w, x, echo =>
      if x.length < chunk_size then List.replicate x.length 0
      else
        let chunk := x.take chunk_size
        let echoChunk := echo.take chunk_size
        let xpad := List.replicate (filter_length - 1) 0 ++ chunk
        let r := lmsRun xpad w 0 (echoChunk.zip chunk)
        r.2 ++ blocksGo fuel r.1 (x.drop chunk_size) (echo.drop chunk_size)

/-- Embeds `echo_cancellation` (lines 183-217).  `delay = int(0.05 *
sample_rate)` (line 188) equals `sample_rate * 5 / 100` in integer
arithmetic for every realistic rate.  The result is `none` exactly when the
numpy slice assignment of lines 191-192 fails (delay 0 with a nonempty
signal: `echo[0:]` has the full length while `audio_data[:-0]` is empty),
in which case the Python stage raises (wrapped by lines 219-221 into
`AudioEnhancementError`).  Otherwise the LMS block loop runs with weights
initialized to zeros (line 196). -/
def echo_cancellation (sample_rate : ℕ) (audio_data : List ℚ) :
    Option (List ℚ) :=
  let delay := sample_rate * 5 / 100
  if delay = 0 ∧ audio_data ≠ [] then none
  else
    some (blocksGo (audio_data.length + 1) (List.replicate filter_length 0)
      audio_data (echoRef delay audio_data))

/-! ## retry_on_error (src/error_handling/handlers.py lines 63-85) -/

/-- The retry loop of `retry_on_error`, fuel-indexed by the remaining
attempts (the wrapper enters with fuel `max_retries` at attempt index 0).
`attempts i` is the outcome of the i-th call of the wrapped function;
`allowed e` is `isinstance(e, allowed_exceptions)`.  An allowed exception
when further attempts remain is followed by `time.sleep(delay * (attempt +
1))` (line 77) — the sleep durations are collected in order in the second
component.  A non-allowed exception re-raises immediately (lines 79-80).
When the loop ends, `raise last_exception` (line 83) surfaces the LAST
recorded exception (`Except.error (some e)`); `Except.error none` is the
degenerate `raise None` reachable only with `max_retries = 0`. -/
def retry_go {α : Type} (delay : ℚ) (allowed : PyExc → Bool)
    (attempts : ℕ → Except PyExc α) :
    ℕ → ℕ → Option PyExc → Except (Option PyExc) α × List ℚ
  | 0, _, last => (Except.error last, [])
  | fuel+1, i, _ =>
      match attempts i with
      | Except.ok v => (Except.ok v, [])
      | Except.error e =>
          if allowed e then
            let sleeps := if 0 < fuel then [delay * ((i : ℚ) + 1)] else []
            let r := retry_go delay allowed attempts fuel (i+1) (some e)
            (r.1, sleeps ++ r.2)
          else (Except.error (some e), [])

/-- Embeds `retry_on_error` (lines 63-85): runs the wrapped function up to
`max_retries` times, returning the surfaced outcome together with the list
of sleep durations performed between attempts. -/
def retry_on_error {α : Type} (max_retries : ℕ) (delay : ℚ)
    (allowed : PyExc → Bool) (attempts : ℕ → Except PyExc α) :
    Except (Option PyExc) α × List ℚ :=
  retry_go delay allowed attempts max_retries 0 none

/-! ## Helper lemmas -/

/-- The `with_timeout` wrapper never alters the surfaced outcome: it
re-raises timeouts and passes everything else through. -/
theorem with_timeout_result_id {α : Type} (r : Except PyExc α) :
    with_timeout_result r = r := by
  unfold with_timeout_result
  split <;> rfl

/-- Any error surfaced by `process_audio`'s `except` clause is an
`AudioProcessingError` instance. -/
theorem process_audio_wrap_error {α : Type} (b : Except PyExc α) (e : PyExc)
    (h : process_audio_wrap b = Except.error e) :
    isAudioProcessingError e = true := by
  cases b with
  | ok v => simp [process_audio_wrap] at h
  | error e2 =>
      simp only [process_audio_wrap] at h
      by_cases h2 : isAudioProcessingError e2 = true
      · rw [if_pos h2] at h
        injection h with h
        rw [← h]
        exact h2
      · rw [if_neg h2] at h
        injection h with h
        rw [← h]
        rfl

/-! ## Claim C1 -/

/-- Claim C1 (code_bug): at the pipeline's default target rate of 16000 Hz
(`TARGET_SAMPLE_RATE`, to which `normalize_audio` resamples every input),
the band-pass construction of `enhance_audio` computes the unclamped
normalized frequencies `Wn = (80/8000, 8000/8000) = (1/100, 1)`; the upper
edge equals 1, violating scipy's `0 < Wn < 1` requirement, so `butter`
raises and the stage surfaces `AudioEnhancementError` instead of returning
a filtered signal. -/
theorem C1_bandpass_raises_at_target_rate :
    butter_Wn TARGET_SAMPLE_RATE = (1/100, 1) ∧
    ¬ butter_ok (butter_Wn TARGET_SAMPLE_RATE) ∧
    stage_wrap (bandpass_step TARGET_SAMPLE_RATE) =
      Except.error PyExc.audioEnhancement := by
  have h1 : butter_Wn TARGET_SAMPLE_RATE = (1/100, 1) := by
    unfold butter_Wn TARGET_SAMPLE_RATE
    norm_num [Prod.ext_iff]
  have h2 : ¬ butter_ok (butter_Wn TARGET_SAMPLE_RATE) := by
    rw [h1]
    intro hc
    exact absurd hc.2.2.2 (by norm_num)
  refine ⟨h1, h2, ?_⟩
  unfold bandpass_step
  rw [if_neg h2]
  rfl

/-! ## Claim C3 -/

/-- Claim C3 counterexample: the suppression strength actually passed to
the noise reducer is the literal constant 0.75 for every channel — in
particular also for a channel whose input SNR is 30 dB, where the claimed
formula `clamp(1 - 30/30, 0.3, 0.75)` demands 0.3. -/
theorem C3_counterexample :
    (adaptive_noise_reduction_args [1, 0] 16000).prop_decrease = 3/4 ∧
    (adaptive_noise_reduction_args [0, 1] 8000).prop_decrease = 3/4 ∧
    spec_strength 30 = 3/10 ∧
    ((3 : ℚ)/4) ≠ 3/10 := by
  refine ⟨rfl, rfl, ?_, by norm_num⟩
  unfold spec_strength
  norm_num

/-- Claim C3 amended: `adaptive_noise_reduction` always calls the spectral
reducer with the fixed suppression strength `prop_decrease = 0.75`,
independent of the channel's content, and with the channel's first second
as noise reference; no SNR-driven clamp exists. -/
theorem C3_amended_constant_strength (x : List ℚ) (sr : ℕ) :
    (adaptive_noise_reduction_args x sr).prop_decrease = 3/4 ∧
    (adaptive_noise_reduction_args x sr).y_noise = x.take sr :=
  ⟨rfl, rfl⟩

/-! ## Claim C4 -/

/-- Claim C4 counterexample: an input decoded at 4000 Hz (below the 8000 Hz
floor) surfaces from `normalize_audio` as `AudioEnhancementError`, not as
the quality-specific `AudioQualityError` the claim requires. -/
theorem C4_counterexample :
    normalize_audio (some ⟨4000, 1⟩) = Except.error PyExc.audioEnhancement ∧
    PyExc.audioEnhancement ≠ PyExc.audioQuality :=
  ⟨rfl, by decide⟩

/-- Claim C4 amended: a decoded rate below the floor or channel count above
the ceiling makes `_validate_audio_parameters` raise `AudioQualityError`,
but `normalize_audio`'s blanket handler re-wraps it, so the error surfaced
is `AudioEnhancementError` (still an `AudioProcessingError`, still terminal
— no retry exists in the pipeline); the quality-specific type never reaches
the caller. -/
theorem C4_amended_quality_rewrapped (a : DecodedAudio)
    (h : a.frame_rate < MIN_SAMPLE_RATE ∨ a.channels > MAX_CHANNELS) :
    validate_audio_parameters a = Except.error PyExc.audioQuality ∧
    normalize_audio (some a) = Except.error PyExc.audioEnhancement ∧
    isAudioProcessingError PyExc.audioEnhancement = true := by
  have hv : validate_audio_parameters a = Except.error PyExc.audioQuality := by
    unfold validate_audio_parameters
    rcases h with h | h
    · rw [if_pos h]
    · by_cases h2 : a.frame_rate < MIN_SAMPLE_RATE
      · rw [if_pos h2]
      · rw [if_neg h2, if_pos h]
  refine ⟨hv, ?_, rfl⟩
  simp [normalize_audio, hv, stage_wrap]

/-- Witness for C4: a concrete 4000 Hz, 3-channel decode. -/
theorem C4_amended_quality_rewrapped_witness :
    validate_audio_parameters ⟨4000, 3⟩ = Except.error PyExc.audioQuality ∧
    normalize_audio (some ⟨4000, 3⟩) = Except.error PyExc.audioEnhancement ∧
    isAudioProcessingError PyExc.audioEnhancement = true :=
  C4_amended_quality_rewrapped ⟨4000, 3⟩ (Or.inl (by decide))

/-! ## Claim C5 -/

/-- Claim C5 counterexample: a stage budget exceeded while the stage body is
inside its `try` block surfaces to the caller as `AudioEnhancementError` —
a non-timeout class — contradicting the claim that an inner-stage timeout is
never re-wrapped. -/
theorem C5_counterexample :
    pipeline_surface AlarmSite.inStageTry (Except.ok ()) =
      (Except.error PyExc.audioEnhancement : Except PyExc Unit) ∧
    PyExc.audioEnhancement ≠ PyExc.audioTimeout :=
  ⟨rfl, by decide⟩

/-- Claim C5 amended: an `AudioProcessingTimeout` raised while execution is
inside an inner stage's `try` block (the common case, since those blocks
span the whole stage bodies) is caught by that stage's blanket
`except Exception` and surfaced as `AudioEnhancementError`; the
timeout-specific type reaches the caller only when the alarm fires in
`process_audio`'s own orchestration code outside every inner `try`. -/
theorem C5_amended_timeout_rewrapped {α : Type} (stages : Except PyExc α) :
    pipeline_surface AlarmSite.inStageTry stages =
      Except.error PyExc.audioEnhancement ∧
    pipeline_surface AlarmSite.inPipelineTry stages =
      Except.error PyExc.audioTimeout :=
  ⟨rfl, rfl⟩

/-! ## Claim C7 -/

/-- Claim C7: the classifier's decision chain equals the spec's rule table
(first match wins, in the stated order), and it is a pure function of the
two mean features, hence deterministic; every input receives one of the
four labels. -/
theorem C7_classifier_matches_rule_table (c r : ℚ) :
    classify_rules c r = spec_rule_table c r ∧
    (classify_rules c r = "ambient" ∨ classify_rules c r = "mechanical" ∨
     classify_rules c r = "speech_babble" ∨ classify_rules c r = "unknown") := by
  refine ⟨rfl, ?_⟩
  unfold classify_rules
  split_ifs <;> simp

/-! ## Claim C10 -/

/-- Claim C10: every error surfaced by `process_audio` — whatever the inner
stages raise (including raw builtin or third-party exceptions) and wherever
a timeout alarm fires — is an `AudioProcessingError` instance: the `except`
clause re-raises `AudioProcessingError`s and wraps everything else as
`AudioEnhancementError`, and the `with_timeout` decorator only re-raises
`AudioProcessingTimeout`, itself a subclass. -/
theorem C10_surfaced_error_is_audio_processing {α : Type}
    (site : AlarmSite) (stages : Except PyExc α) (e : PyExc)
    (h : pipeline_surface site stages = Except.error e) :
    isAudioProcessingError e = true := by
  unfold pipeline_surface at h
  rw [with_timeout_result_id] at h
  exact process_audio_wrap_error _ e h

/-- Witness for C10: a raw `ValueError` raised inside the pipeline surfaces
as `AudioEnhancementError`, which is an `AudioProcessingError`. -/
theorem C10_surfaced_error_is_audio_processing_witness :
    isAudioProcessingError PyExc.audioEnhancement = true :=
  C10_surfaced_error_is_audio_processing AlarmSite.noAlarm
    (Except.error (PyExc.raw ("ValueError")) : Except PyExc Unit)
    PyExc.audioEnhancement rfl

/-! ## Claim C6 -/

/-- Claim C6 counterexample: with the configuration the claim describes
(3 attempts, 1-second delay) and every attempt failing with an allowed
exception, the sleeps performed are 1 s then 2 s — `delay * (attempt + 1)`,
a linear backoff, not the claimed fixed 1-second delay — and the error
finally surfaced is the causing exception itself, not a wrapper (no
`ChunkRetryExhausted` class exists anywhere in the repository). -/
theorem C6_counterexample :
    retry_on_error 3 1 (fun _ => true)
        (fun _ => (Except.error (PyExc.raw ("DatabaseError")) : Except PyExc Unit)) =
      (Except.error (some (PyExc.raw ("DatabaseError"))), [1, 2]) ∧
    ([1, 2] : List ℚ) ≠ [1, 1] := by
  constructor
  · show (retry_go 1 (fun _ => true) _ 3 0 none) = _
    norm_num [retry_go]
  · intro hc
    have h2 := List.head_eq_of_cons_eq (List.tail_eq_of_cons_eq hc)
    norm_num at h2

/-- Claim C6 amended: `retry_on_error` with `max_retries = 3` makes up to 3
attempts; when every attempt raises an allowed exception, the sleep before
retry k lasts `delay * k` seconds (`delay * (attempt + 1)`, line 77 — 1 s
then 2 s at the 1-second default: linear backoff, not fixed), and after the
3rd failure the last raised exception itself is re-raised unwrapped. -/
theorem C6_amended_linear_backoff (delay : ℚ) (allowed : PyExc → Bool)
    (es : ℕ → PyExc) (h : ∀ i, i < 3 → allowed (es i) = true) :
    retry_on_error (α := Unit) 3 delay allowed (fun i => Except.error (es i)) =
      (Except.error (some (es 2)), [delay * 1, delay * 2]) := by
  have h0 := h 0 (by norm_num)
  have h1 := h 1 (by norm_num)
  have h2 := h 2 (by norm_num)
  unfold retry_on_error
  norm_num [retry_go, h0, h1, h2]

/-- Witness for C6: every attempt raises the same allowed exception. -/
theorem C6_amended_linear_backoff_witness :
    retry_on_error (α := Unit) 3 1 (fun _ => true)
        (fun _ => Except.error (PyExc.raw ("DatabaseError"))) =
      (Except.error (some (PyExc.raw ("DatabaseError"))), [1 * 1, 1 * 2]) :=
  C6_amended_linear_backoff 1 (fun _ => true)
    (fun _ => PyExc.raw ("DatabaseError")) (fun _ _ => rfl)

/-! ## Claim C8 -/

/-- Claim C8 counterexample: the spec's estimator gives 30 dB for a
signal/noise power ratio of 1000, where the claimed SNR-driven strength
would be `clamp(1 - 30/30, 0.3, 0.75) = 0.3`; but the strength the program
actually passes for every channel is the constant 0.75, so no SNR estimate
is computed before enhancement or drives the suppression (nor is any
computed after: no SNR code exists in the repository). -/
theorem C8_counterexample :
    snr_db_spec 1000 1 = ((30 : ℝ) : EReal) ∧
    spec_strength 30 = 3/10 ∧
    (adaptive_noise_reduction_args [1, 1] TARGET_SAMPLE_RATE).prop_decrease = 3/4 ∧
    ((3 : ℚ)/4) ≠ 3/10 := by
  have h10 : Real.log 10 ≠ 0 := by
    have := Real.log_pos (by norm_num : (1:ℝ) < 10)
    linarith
  have hl : Real.logb 10 ((1000:ℝ)/1) = 3 := by
    rw [div_one, show (1000:ℝ) = 10 ^ (3:ℕ) by norm_num, Real.logb,
      Real.log_pow, mul_div_assoc, div_self h10, mul_one]
    norm_num
  refine ⟨?_, ?_, rfl, by norm_num⟩
  · unfold snr_db_spec
    rw [if_neg (by norm_num : (1:ℝ) ≠ 0), hl, show (10:ℝ) * 3 = 30 by norm_num]
  · unfold spec_strength
    norm_num

/-- Claim C8 amended: the SNR formula itself (modelled from the spec, since
no SNR code exists under src/) returns plus infinity on zero noise power
and `10*log10(P_signal/P_noise)` otherwise; but the program never computes
it: the enhancement path passes the fixed suppression strength 0.75 for
every channel, so no SNR estimate drives the adaptive suppression. -/
theorem C8_amended_no_snr_driven_strength (p pn : ℝ) (hn : pn ≠ 0) :
    snr_db_spec p 0 = ⊤ ∧
    snr_db_spec p pn = ((10 * Real.logb 10 (p / pn) : ℝ) : EReal) ∧
    ∀ (x : List ℚ) (sr : ℕ),
      (adaptive_noise_reduction_args x sr).prop_decrease = 3/4 := by
  refine ⟨?_, ?_, fun x sr => rfl⟩
  · unfold snr_db_spec
    rw [if_pos rfl]
  · unfold snr_db_spec
    rw [if_neg hn]

/-- Witness for C8: concrete powers 1000 and 1. -/
theorem C8_amended_no_snr_driven_strength_witness :
    ((1:ℝ) ≠ 0) ∧
    (snr_db_spec 1000 0 = ⊤ ∧
     snr_db_spec 1000 1 = ((10 * Real.logb 10 ((1000:ℝ) / 1) : ℝ) : EReal) ∧
     ∀ (x : List ℚ) (sr : ℕ),
       (adaptive_noise_reduction_args x sr).prop_decrease = 3/4) :=
  ⟨by norm_num, C8_amended_no_snr_driven_strength 1000 1 (by norm_num)⟩

/-! ## Echo-cancellation structure lemmas (for claims C2 and C9) -/

/-- The inner LMS loop emits exactly one output sample per processed pair. -/
theorem lmsRun_length_out (xpad w : List ℚ) (n : ℕ) (ps : List (ℚ × ℚ)) :
    (lmsRun xpad w n ps).2.length = ps.length := by
  induction ps generalizing w n with
  | nil => rfl
  | cons p ps ih => simp [lmsRun, ih]

/-- The synthetic echo reference has the length of the input
(`np.zeros_like`). -/
theorem echoRef_length (delay : ℕ) (x : List ℚ) :
    (echoRef delay x).length = x.length := by
  simp [echoRef]
  omega

/-- The block loop preserves the signal length (the output buffer is
`np.zeros_like(audio_data)` and only its first `len/1024*1024` entries are
ever written). -/
theorem blocksGo_length (fuel : ℕ) (w x echo : List ℚ)
    (h : x.length ≤ echo.length) :
    (blocksGo fuel w x echo).length = x.length := by
  induction fuel generalizing w x echo with
  | zero => simp [blocksGo]
  | succ fuel ih =>
      simp only [blocksGo]
      split_ifs with hlt
      · simp
      · have h2 : (x.drop chunk_size).length ≤ (echo.drop chunk_size).length := by
          simp only [List.length_drop]
          omega
        rw [List.length_append, ih _ _ _ h2, lmsRun_length_out]
        simp only [List.length_zip, List.length_take, List.length_drop]
        simp only [chunk_size] at hlt ⊢
        omega

/-- The block loop leaves every position at or beyond the last full
1024-sample block boundary at its initialized zero. -/
theorem blocksGo_drop_tail (fuel : ℕ) (w x echo : List ℚ)
    (h : x.length ≤ echo.length) :
    (blocksGo fuel w x echo).drop (x.length / 1024 * 1024) =
      List.replicate (x.length % 1024) 0 := by
  induction fuel generalizing w x echo with
  | zero =>
      simp only [blocksGo]
      rw [List.drop_replicate]
      congr 1
      omega
  | succ fuel ih =>
      simp only [blocksGo]
      split_ifs with hlt
      · rw [List.drop_replicate]
        congr 1
        omega
      · have h2 : (x.drop chunk_size).length ≤ (echo.drop chunk_size).length := by
          simp only [List.length_drop]
          omega
        have hlen2 : (lmsRun (List.replicate (filter_length - 1) 0 ++ x.take chunk_size)
            w 0 ((echo.take chunk_size).zip (x.take chunk_size))).2.length = 1024 := by
          rw [lmsRun_length_out]
          simp only [List.length_zip, List.length_take, chunk_size] at *
          omega
        have hidx : x.length / 1024 * 1024 =
            (lmsRun (List.replicate (filter_length - 1) 0 ++ x.take chunk_size)
              w 0 ((echo.take chunk_size).zip (x.take chunk_size))).2.length +
            (x.drop chunk_size).length / 1024 * 1024 := by
          rw [hlen2]
          simp only [List.length_drop, chunk_size] at *
          omega
        rw [hidx, List.drop_append, ih _ _ _ h2]
        congr 1
        simp only [List.length_drop, chunk_size] at *
        omega

/-! ## Claim C2 -/

/-- Claim C2 counterexample: a one-sample input (length not a multiple of
1024) comes back as the all-zero array — the trailing samples are zeroed,
not passed through unmodified as the claim states. -/
theorem C2_counterexample :
    echo_cancellation 16000 [(1:ℚ)/2] = some [0] ∧
    ([(0:ℚ)] : List ℚ) ≠ [(1:ℚ)/2] := by
  refine ⟨rfl, ?_⟩
  intro hc
  have h2 := List.head_eq_of_cons_eq hc
  norm_num at h2

/-- Claim C2 amended: `echo_cancellation` returns a signal of the input's
length whose entries at or beyond the last full 1024-sample block boundary
are all ZERO — the output buffer is preallocated as zeros and the loop
breaks before writing any partial block — rather than copies of the input.
(The hypothesis `0 < sample_rate * 5 / 100` says the 50 ms echo delay is at
least one sample, which holds at every rate the pipeline uses.) -/
theorem C2_amended_tail_zeroed (sr : ℕ) (x : List ℚ)
    (hd : 0 < sr * 5 / 100) :
    ∃ o, echo_cancellation sr x = some o ∧ o.length = x.length ∧
      o.drop (x.length / 1024 * 1024) = List.replicate (x.length % 1024) 0 := by
  have hne : ¬(sr * 5 / 100 = 0 ∧ x ≠ []) := by
    intro hc
    omega
  have hlen : x.length ≤ (echoRef (sr * 5 / 100) x).length := by
    rw [echoRef_length]
  refine ⟨blocksGo (x.length + 1) (List.replicate filter_length 0) x
      (echoRef (sr * 5 / 100) x), ?_, ?_, ?_⟩
  · simp [echo_cancellation, hne]
  · exact blocksGo_length _ _ _ _ hlen
  · exact blocksGo_drop_tail _ _ _ _ hlen

/-- Witness for C2: a concrete 3-sample input at the pipeline rate. -/
theorem C2_amended_tail_zeroed_witness :
    0 < 16000 * 5 / 100 ∧
    ∃ o, echo_cancellation 16000 [(1:ℚ), 2, 3] = some o ∧
      o.length = ([(1:ℚ), 2, 3] : List ℚ).length ∧
      o.drop (([(1:ℚ), 2, 3] : List ℚ).length / 1024 * 1024) =
        List.replicate (([(1:ℚ), 2, 3] : List ℚ).length % 1024) 0 :=
  ⟨by norm_num, C2_amended_tail_zeroed 16000 [(1:ℚ), 2, 3] (by norm_num)⟩

/-! ## Claim C9 -/

/-- Claim C9: an input shorter than one 1024-sample LMS block makes the
block loop break on its first iteration, so `echo_cancellation` returns the
preallocated all-zero buffer of the input's length — the entire signal
content is discarded, not passed through. -/
theorem C9_short_input_all_zeros (sr : ℕ) (x : List ℚ)
    (hd : 0 < sr * 5 / 100) (hlen : x.length < 1024) :
    echo_cancellation sr x = some (List.replicate x.length 0) := by
  have hne : ¬(sr * 5 / 100 = 0 ∧ x ≠ []) := by
    intro hc
    omega
  simp [echo_cancellation, hne]
  simp [blocksGo, chunk_size, hlen]

/-- Witness for C9: a concrete one-sample input at the pipeline rate. -/
theorem C9_short_input_all_zeros_witness :
    0 < 16000 * 5 / 100 ∧ ([(1:ℚ)] : List ℚ).length < 1024 ∧
    echo_cancellation 16000 [(1:ℚ)] =
      some (List.replicate ([(1:ℚ)] : List ℚ).length 0) :=
  ⟨by norm_num, by norm_num,
    C9_short_input_all_zeros 16000 [(1:ℚ)] (by norm_num) (by norm_num)⟩
